import Mathlib

/-!
Shallow embedding of `src/rust/ballista/src/executor/shuffle_reader.rs`
(the `ShuffleReaderExec` physical-plan leaf operator) together with the
collaborator interfaces it consumes, and proofs of the specification
claims about it.

Network collaborators (`BallistaClient::try_new`, `fetch_partition`) are
external to this file's source and are modelled as oracle parameters; the
network activity performed by `execute` is made observable as an explicit
trace of events, so that claims about which connections are opened and
which fetches are issued become statements about that trace.
-/

/-- Column of an Arrow schema: a (name, data type) pair.  The data type is
kept abstract as a string tag, which is all the claims need. -/
structure ArrowField where
  name : String
  dtype : String
deriving DecidableEq, Repr

/-- Arrow schema (`SchemaRef`): an ordered sequence of fields. -/
structure Schema where
  fields : List ArrowField
deriving DecidableEq, Repr

/-- Modelled from the spec: `RecordBatch` is an opaque, immutable,
column-oriented chunk of rows; only its identity (here represented by its
row count tag) matters to the claims. -/
structure RecordBatch where
  numRows : Nat
deriving DecidableEq, Repr

/-- Modelled from the spec: executor address part of a `PartitionLocation`
(`ExecutorMeta` lives in the scheduler module, outside the given source).
The source stores the port as a 16-bit integer and widens it with
`as usize` inside `execute`; the widening is value-preserving, so the port
is a plain natural number here. -/
structure ExecutorMeta where
  host : String
  port : Nat
deriving DecidableEq, Repr

/-- Modelled from the spec: partition identity (job id, stage index,
partition index) part of a `PartitionLocation` (defined in the scheduler
module, outside the given source). -/
structure PartitionId where
  job_uuid : String
  stage_id : Nat
  partition_id : Nat
deriving DecidableEq, Repr

/-- Modelled from the spec: `PartitionLocation` identifies one output
partition — executor address plus partition identity. -/
structure PartitionLocation where
  executor_meta : ExecutorMeta
  partition_id : PartitionId
deriving DecidableEq, Repr

/-- Error type of the external `BallistaClient`; opaque here, carrying only
its debug rendering (the source formats it with the debug formatter). -/
structure BallistaError where
  debugRepr : String
deriving DecidableEq, Repr

/-- DataFusion error type, restricted to the variants the source
constructs: `DataFusionError::Plan` and `DataFusionError::Execution`. -/
inductive DataFusionError where
  | Plan (msg : String)
  | Execution (msg : String)
deriving DecidableEq, Repr

/-- The `ShuffleReaderExec` node: an index-aligned list of partition
locations and the output schema. -/
structure ShuffleReaderExec where
  partition_location : List PartitionLocation
  schema : Schema
deriving DecidableEq, Repr

/-- Opaque handle for a live client session (`BallistaClient`). -/
structure BallistaClient where
  tag : Nat
deriving DecidableEq, Repr

/-- One observable network action of `execute`. -/
inductive NetEvent where
  | connect (host : String) (port : Nat)
  | fetchPartition (jobId : String) (stageId : Nat) (partitionIndex : Nat)
deriving DecidableEq, Repr

/-- Modelled from the spec: `MemoryStream` (the `makeSequence`
collaborator, defined outside the given source) wraps a finite batch
collection, a schema and an optional row-count cap into a finite, ordered,
single-pass `BatchSequence`. -/
structure MemoryStream where
  batches : List RecordBatch
  schema : Schema
  rowLimit : Option Nat
deriving DecidableEq, Repr

namespace MemoryStream

/-- Modelled from the spec: `MemoryStream::try_new` is local and
non-failing on well-formed input; it returns the wrapping stream. -/
def tryNew (batches : List RecordBatch) (schema : Schema)
    (rowLimit : Option Nat) : Except DataFusionError MemoryStream :=
  .ok { batches := batches, schema := schema, rowLimit := rowLimit }

/-- Modelled from the spec: with no row-count cap the stream yields
exactly its batches in order and then terminates.  Every use in the
embedded source passes no cap, so the capped case never arises. -/
def output (s : MemoryStream) : List RecordBatch :=
  s.batches

end MemoryStream

/-- Outcome of a call to `execute`: a Rust panic (process-level abort,
outside the `Result` error channel), an error returned through the
`Result` channel, or a successfully constructed batch stream. -/
inductive ExecResult where
  | panic (msg : String)
  | err (e : DataFusionError)
  | ok (stream : MemoryStream)
deriving DecidableEq, Repr

/-- True exactly when the outcome is an error returned through the
`Result` channel (not a panic, not a success). -/
def ExecResult.isErr : ExecResult → Bool
  | .err _ => true
  | _ => false

/-- Oracle for the external connection factory
`BallistaClient::try_new(host, port)`. -/
def ConnectOracle : Type :=
  String → Nat → Except BallistaError BallistaClient

/-- Oracle for the external fetch call
`client.fetch_partition(job_uuid, stage_id, partition)`. -/
def FetchOracle : Type :=
  BallistaClient → String → Nat → Nat → Except BallistaError (List RecordBatch)

namespace ShuffleReaderExec

/-- `ShuffleReaderExec::try_new`: wraps the arguments, unconditionally
`Ok`, with no other effect. -/
def try_new (partition_meta : List PartitionLocation) (schema : Schema) :
    Except DataFusionError ShuffleReaderExec :=
  .ok { partition_location := partition_meta, schema := schema }

/-- `ExecutionPlan::schema` for `ShuffleReaderExec`: clones the stored
schema. -/
def planSchema (self : ShuffleReaderExec) : Schema :=
  self.schema

/-- DataFusion `Partitioning`, restricted to the variants relevant here;
the source only ever constructs `UnknownPartitioning`. -/
inductive Partitioning where
  | RoundRobinBatch (n : Nat)
  | UnknownPartitioning (n : Nat)
deriving DecidableEq, Repr

/-- Number of parts a `Partitioning` declares. -/
def Partitioning.partitionCount : Partitioning → Nat
  | .RoundRobinBatch n => n
  | .UnknownPartitioning n => n

/-- `ShuffleReaderExec::output_partitioning`. -/
def output_partitioning (self : ShuffleReaderExec) : Partitioning :=
  .UnknownPartitioning self.partition_location.length

/-- `ShuffleReaderExec::children`: always empty (leaf node).  The element
type is irrelevant since the list is empty; `Unit` stands for the erased
`Arc<dyn ExecutionPlan>`. -/
def children (_self : ShuffleReaderExec) : List Unit :=
  []

/-- `ShuffleReaderExec::with_new_children`: unconditionally returns
`DataFusionError::Plan` with the fixed message, for every children
argument. -/
def with_new_children {α : Type} (_self : ShuffleReaderExec)
    (_children : List α) : Except DataFusionError ShuffleReaderExec :=
  .error (.Plan "Ballista ShuffleReaderExec does not support with_new_children()")

/-- `ShuffleReaderExec::execute(partition)`, with collaborators passed as
oracles.  Returns the outcome together with the trace of network events,
in the order the source issues them.  Mirrors the source line by line:
index `self.partition_location[partition]` (a Rust slice index, which
panics when out of range); connect to the location's host and port,
mapping a failure to `DataFusionError::Execution` with the
`"Ballista Error: "` debug-formatted cause; fetch by the location's job
id and stage id and the call argument `partition`, with the same error
mapping; finally wrap the batches with `MemoryStream::try_new(batches,
self.schema(), None)`. -/
def execute (connectO : ConnectOracle) (fetchO : FetchOracle)
    (self : ShuffleReaderExec) (partition : Nat) :
    ExecResult × List NetEvent :=
  if h : partition < self.partition_location.length then
    match connectO (self.partition_location.get ⟨partition, h⟩).executor_meta.host
        (self.partition_location.get ⟨partition, h⟩).executor_meta.port with
    | .error e =>
        (.err (.Execution ("Ballista Error: " ++ e.debugRepr)),
          [.connect (self.partition_location.get ⟨partition, h⟩).executor_meta.host
              (self.partition_location.get ⟨partition, h⟩).executor_meta.port])
    | .ok client =>
        match fetchO client (self.partition_location.get ⟨partition, h⟩).partition_id.job_uuid
            (self.partition_location.get ⟨partition, h⟩).partition_id.stage_id partition with
        | .error e =>
            (.err (.Execution ("Ballista Error: " ++ e.debugRepr)),
              [.connect (self.partition_location.get ⟨partition, h⟩).executor_meta.host
                  (self.partition_location.get ⟨partition, h⟩).executor_meta.port,
                .fetchPartition (self.partition_location.get ⟨partition, h⟩).partition_id.job_uuid
                  (self.partition_location.get ⟨partition, h⟩).partition_id.stage_id partition])
        | .ok batches =>
            match MemoryStream.tryNew batches (planSchema self) none with
            | .error e =>
                (.err e,
                  [.connect (self.partition_location.get ⟨partition, h⟩).executor_meta.host
                      (self.partition_location.get ⟨partition, h⟩).executor_meta.port,
                    .fetchPartition (self.partition_location.get ⟨partition, h⟩).partition_id.job_uuid
                      (self.partition_location.get ⟨partition, h⟩).partition_id.stage_id partition])
            | .ok stream =>
                (.ok stream,
                  [.connect (self.partition_location.get ⟨partition, h⟩).executor_meta.host
                      (self.partition_location.get ⟨partition, h⟩).executor_meta.port,
                    .fetchPartition (self.partition_location.get ⟨partition, h⟩).partition_id.job_uuid
                      (self.partition_location.get ⟨partition, h⟩).partition_id.stage_id partition])
  else
    (.panic "index out of bounds", [])

/-- `execute` together with the node state after the call.  The source
method takes `&self` and writes to no field, so the post-state is the
node re-read field by field after the call. -/
def executeFull (connectO : ConnectOracle) (fetchO : FetchOracle)
    (self : ShuffleReaderExec) (partition : Nat) :
    ShuffleReaderExec × ExecResult × List NetEvent :=
  let r := execute connectO fetchO self partition
  ({ partition_location := self.partition_location, schema := self.schema }, r)

end ShuffleReaderExec

/-- Count of connection events in a trace. -/
def countConnects (tr : List NetEvent) : Nat :=
  tr.countP fun ev => match ev with
    | .connect _ _ => true
    | _ => false

/-- Count of fetch events in a trace. -/
def countFetches (tr : List NetEvent) : Nat :=
  tr.countP fun ev => match ev with
    | .fetchPartition _ _ _ => true
    | _ => false

/-! Concrete fixtures used by witnesses and counterexamples. -/

/-- A connection oracle that always fails. -/
def connNever : ConnectOracle :=
  fun _ _ => .error { debugRepr := "connection refused" }

/-- A connection oracle that always succeeds. -/
def connOK : ConnectOracle :=
  fun _ _ => .ok { tag := 0 }

/-- A fetch oracle that always fails. -/
def fetchNever : FetchOracle :=
  fun _ _ _ _ => .error { debugRepr := "stream error" }

/-- A fetch oracle that always returns one 3-row batch (the spec
scenario). -/
def fetchOne : FetchOracle :=
  fun _ _ _ _ => .ok [{ numRows := 3 }]

/-- The spec scenario schema with one int32 column named a. -/
def schemaA : Schema :=
  { fields := [{ name := "a", dtype := "int32" }] }

/-- The spec scenario location: worker w1 port 7001, job J1, stage 2,
partition 0. -/
def locW1 : PartitionLocation :=
  { executor_meta := { host := "w1", port := 7001 },
    partition_id := { job_uuid := "J1", stage_id := 2, partition_id := 0 } }

/-- The spec scenario node: a single location and the one-column schema. -/
def nodeW1 : ShuffleReaderExec :=
  { partition_location := [locW1], schema := schemaA }

/-- A node with an empty location list. -/
def nodeEmpty : ShuffleReaderExec :=
  { partition_location := [], schema := schemaA }

/-- A location whose stored partition index (5) differs from the position
(0) it occupies in a node's location list. -/
def locSkew : PartitionLocation :=
  { executor_meta := { host := "w2", port := 7002 },
    partition_id := { job_uuid := "J9", stage_id := 4, partition_id := 5 } }

/-- A node holding `locSkew` at position 0. -/
def nodeSkew : ShuffleReaderExec :=
  { partition_location := [locSkew], schema := schemaA }

/-! Helper lemmas characterising `execute` on each control path. -/

/-- On a valid index, a connection failure makes `execute` return the
wrapped execution error after the single connect attempt. -/
theorem execute_connect_err (connectO : ConnectOracle) (fetchO : FetchOracle)
    (self : ShuffleReaderExec) (i : Nat) (h : i < self.partition_location.length)
    (e : BallistaError)
    (hc : connectO (self.partition_location.get ⟨i, h⟩).executor_meta.host
        (self.partition_location.get ⟨i, h⟩).executor_meta.port = .error e) :
    ShuffleReaderExec.execute connectO fetchO self i =
      (.err (.Execution ("Ballista Error: " ++ e.debugRepr)),
        [.connect (self.partition_location.get ⟨i, h⟩).executor_meta.host
            (self.partition_location.get ⟨i, h⟩).executor_meta.port]) := by
  unfold ShuffleReaderExec.execute
  rw [dif_pos h, hc]

/-- On a valid index, after a successful connection a fetch failure makes
`execute` return the wrapped execution error after one connect and one
fetch attempt. -/
theorem execute_fetch_err (connectO : ConnectOracle) (fetchO : FetchOracle)
    (self : ShuffleReaderExec) (i : Nat) (h : i < self.partition_location.length)
    (client : BallistaClient) (e : BallistaError)
    (hc : connectO (self.partition_location.get ⟨i, h⟩).executor_meta.host
        (self.partition_location.get ⟨i, h⟩).executor_meta.port = .ok client)
    (hf : fetchO client (self.partition_location.get ⟨i, h⟩).partition_id.job_uuid
        (self.partition_location.get ⟨i, h⟩).partition_id.stage_id i = .error e) :
    ShuffleReaderExec.execute connectO fetchO self i =
      (.err (.Execution ("Ballista Error: " ++ e.debugRepr)),
        [.connect (self.partition_location.get ⟨i, h⟩).executor_meta.host
            (self.partition_location.get ⟨i, h⟩).executor_meta.port,
          .fetchPartition (self.partition_location.get ⟨i, h⟩).partition_id.job_uuid
            (self.partition_location.get ⟨i, h⟩).partition_id.stage_id i]) := by
  unfold ShuffleReaderExec.execute
  rw [dif_pos h, hc]
  simp only [hf]

/-- On a valid index, when both the connection and the fetch succeed,
`execute` wraps the fetched batches with the node's schema and no
row-count cap, after one connect and one fetch attempt. -/
theorem execute_ok_path (connectO : ConnectOracle) (fetchO : FetchOracle)
    (self : ShuffleReaderExec) (i : Nat) (h : i < self.partition_location.length)
    (client : BallistaClient) (batches : List RecordBatch)
    (hc : connectO (self.partition_location.get ⟨i, h⟩).executor_meta.host
        (self.partition_location.get ⟨i, h⟩).executor_meta.port = .ok client)
    (hf : fetchO client (self.partition_location.get ⟨i, h⟩).partition_id.job_uuid
        (self.partition_location.get ⟨i, h⟩).partition_id.stage_id i = .ok batches) :
    ShuffleReaderExec.execute connectO fetchO self i =
      (.ok { batches := batches, schema := ShuffleReaderExec.planSchema self,
             rowLimit := none },
        [.connect (self.partition_location.get ⟨i, h⟩).executor_meta.host
            (self.partition_location.get ⟨i, h⟩).executor_meta.port,
          .fetchPartition (self.partition_location.get ⟨i, h⟩).partition_id.job_uuid
            (self.partition_location.get ⟨i, h⟩).partition_id.stage_id i]) := by
  unfold ShuffleReaderExec.execute
  rw [dif_pos h, hc]
  simp only [hf, MemoryStream.tryNew]

/-! Claim theorems. -/

/-- C1 (counterexample to the claim as stated): at the concrete node with
an empty location list, `execute(0)` does not fail with an error returned
through the operator's error channel — it panics (a Rust index
out-of-bounds panic), so the outcome is not an `err` value. -/
theorem C1_execute_out_of_range_not_err :
    (ShuffleReaderExec.execute connNever fetchNever nodeEmpty 0).1 =
        .panic "index out of bounds" ∧
    (ShuffleReaderExec.execute connNever fetchNever nodeEmpty 0).1.isErr = false := by
  constructor
  · rfl
  · rfl

/-- C1 (amended): for every index at or beyond the end of the location
list, `execute` fails with an index out-of-bounds panic — a process-level
abort, not an error returned through the operator's error channel — and
no connection is opened and no fetch is issued (the network trace is
empty). -/
theorem C1_execute_out_of_range_panics (connectO : ConnectOracle)
    (fetchO : FetchOracle) (self : ShuffleReaderExec) (i : Nat)
    (h : self.partition_location.length ≤ i) :
    ShuffleReaderExec.execute connectO fetchO self i =
      (.panic "index out of bounds", []) := by
  unfold ShuffleReaderExec.execute
  rw [dif_neg (Nat.not_lt.mpr h)]

/-- Witness for C1 (amended) at the empty node and index 0. -/
theorem C1_execute_out_of_range_panics_witness :
    nodeEmpty.partition_location.length ≤ 0 ∧
    ShuffleReaderExec.execute connNever fetchNever nodeEmpty 0 =
      (.panic "index out of bounds", []) :=
  ⟨by decide,
    C1_execute_out_of_range_panics connNever fetchNever nodeEmpty 0 (by decide)⟩

/-- C5: for every node, including one with an empty location list,
`output_partitioning` is the opaque `UnknownPartitioning` variant whose
part count equals the length of the location list. -/
theorem C5_output_partitioning_unknown (self : ShuffleReaderExec) :
    ShuffleReaderExec.output_partitioning self =
        ShuffleReaderExec.Partitioning.UnknownPartitioning
          self.partition_location.length ∧
    (ShuffleReaderExec.output_partitioning self).partitionCount =
        self.partition_location.length :=
  ⟨rfl, rfl⟩

/-- C6: a node built by `try_new` from a schema returns exactly that
schema from `schema()`, on every call, for any partition index and after
any `execute` activity (the post-call node still reports it). -/
theorem C6_schema_fixed (locs : List PartitionLocation) (sch : Schema)
    (node : ShuffleReaderExec)
    (h : ShuffleReaderExec.try_new locs sch = .ok node) :
    ShuffleReaderExec.planSchema node = sch ∧
    ∀ (connectO : ConnectOracle) (fetchO : FetchOracle) (i : Nat),
      ShuffleReaderExec.planSchema
          (ShuffleReaderExec.executeFull connectO fetchO node i).1 = sch := by
  have hnode : node = { partition_location := locs, schema := sch } := by
    simpa [ShuffleReaderExec.try_new, eq_comm] using h
  subst hnode
  exact ⟨rfl, fun _ _ _ => rfl⟩

/-- Witness for C6 at the spec scenario node. -/
theorem C6_schema_fixed_witness :
    ShuffleReaderExec.planSchema nodeW1 = schemaA :=
  (C6_schema_fixed [locW1] schemaA nodeW1 rfl).1

/-- C7: `with_new_children` fails for every children argument — empty or
not — always with the same `DataFusionError::Plan` value, and hence never
returns a node. -/
theorem C7_with_new_children_always_fails {α : Type}
    (self : ShuffleReaderExec) (cs : List α) :
    ShuffleReaderExec.with_new_children self cs =
      .error (.Plan "Ballista ShuffleReaderExec does not support with_new_children()") :=
  rfl

/-- C8: for every well-formed argument pair (non-empty schema, any
location list including the empty one), `try_new` succeeds and the node
holds exactly the given locations and schema; the constructor consults no
oracle, so no I/O happens at construction. -/
theorem C8_try_new_succeeds (locs : List PartitionLocation) (sch : Schema)
    (hsch : sch.fields ≠ []) :
    ShuffleReaderExec.try_new locs sch =
      .ok { partition_location := locs, schema := sch } :=
  rfl

/-- Witness for C8 at an empty location list and the one-column schema. -/
theorem C8_try_new_succeeds_witness :
    schemaA.fields ≠ [] ∧
    ShuffleReaderExec.try_new [] schemaA =
      .ok { partition_location := [], schema := schemaA } :=
  ⟨by decide, C8_try_new_succeeds [] schemaA (by decide)⟩

/-- C9: every `execute` call — succeeding, failing or panicking — leaves
the node unchanged: the post-call node equals the pre-call node, and in
particular its location list and schema are identical. -/
theorem C9_execute_preserves_node (connectO : ConnectOracle)
    (fetchO : FetchOracle) (self : ShuffleReaderExec) (i : Nat) :
    (ShuffleReaderExec.executeFull connectO fetchO self i).1 = self ∧
    (ShuffleReaderExec.executeFull connectO fetchO self i).1.partition_location =
        self.partition_location ∧
    (ShuffleReaderExec.executeFull connectO fetchO self i).1.schema = self.schema :=
  ⟨rfl, rfl, rfl⟩

/-- On a valid index the network trace of `execute` is exactly one of two
lists: a single connect to the located worker, or that connect followed by
one fetch keyed by the located job id, the located stage id, and the call
argument index. -/
theorem execute_trace_cases (connectO : ConnectOracle) (fetchO : FetchOracle)
    (self : ShuffleReaderExec) (i : Nat) (h : i < self.partition_location.length) :
    (ShuffleReaderExec.execute connectO fetchO self i).2 =
        [NetEvent.connect (self.partition_location.get ⟨i, h⟩).executor_meta.host
            (self.partition_location.get ⟨i, h⟩).executor_meta.port] ∨
      (ShuffleReaderExec.execute connectO fetchO self i).2 =
        [NetEvent.connect (self.partition_location.get ⟨i, h⟩).executor_meta.host
            (self.partition_location.get ⟨i, h⟩).executor_meta.port,
          NetEvent.fetchPartition
            (self.partition_location.get ⟨i, h⟩).partition_id.job_uuid
            (self.partition_location.get ⟨i, h⟩).partition_id.stage_id i] := by
  cases hc : connectO (self.partition_location.get ⟨i, h⟩).executor_meta.host
      (self.partition_location.get ⟨i, h⟩).executor_meta.port with
  | error e =>
    left
    rw [execute_connect_err connectO fetchO self i h e hc]
  | ok client =>
    cases hf : fetchO client (self.partition_location.get ⟨i, h⟩).partition_id.job_uuid
        (self.partition_location.get ⟨i, h⟩).partition_id.stage_id i with
    | error e =>
      right
      rw [execute_fetch_err connectO fetchO self i h client e hc hf]
    | ok batches =>
      right
      rw [execute_ok_path connectO fetchO self i h client batches hc hf]

/-- C2: for every valid index, `execute(i)` connects exactly to the host
and port of `locations[i]` and issues at most one fetch, keyed exactly by
that location's job id and stage id and the call index — the trace never
holds any other identity. -/
theorem C2_execute_contacts_only_location (connectO : ConnectOracle)
    (fetchO : FetchOracle) (self : ShuffleReaderExec) (i : Nat)
    (h : i < self.partition_location.length) :
    (ShuffleReaderExec.execute connectO fetchO self i).2 =
        [NetEvent.connect (self.partition_location.get ⟨i, h⟩).executor_meta.host
            (self.partition_location.get ⟨i, h⟩).executor_meta.port] ∨
      (ShuffleReaderExec.execute connectO fetchO self i).2 =
        [NetEvent.connect (self.partition_location.get ⟨i, h⟩).executor_meta.host
            (self.partition_location.get ⟨i, h⟩).executor_meta.port,
          NetEvent.fetchPartition
            (self.partition_location.get ⟨i, h⟩).partition_id.job_uuid
            (self.partition_location.get ⟨i, h⟩).partition_id.stage_id i] :=
  execute_trace_cases connectO fetchO self i h

/-- Witness for C2 at the spec scenario: the trace connects to w1:7001 and
fetches (J1, 2, 0). -/
theorem C2_execute_contacts_only_location_witness :
    (ShuffleReaderExec.execute connOK fetchOne nodeW1 0).2 =
        [NetEvent.connect "w1" 7001] ∨
      (ShuffleReaderExec.execute connOK fetchOne nodeW1 0).2 =
        [NetEvent.connect "w1" 7001, NetEvent.fetchPartition "J1" 2 0] :=
  C2_execute_contacts_only_location connOK fetchOne nodeW1 0 (by decide)

/-- C3: for every valid index, a connection failure or a fetch failure
makes `execute` return the single uniform `Execution` error whose message
is the Ballista component tag followed by the underlying cause, with no
stream returned; and in every case the call makes exactly one connection
attempt and at most one fetch attempt. -/
theorem C3_execute_failure_uniform (connectO : ConnectOracle)
    (fetchO : FetchOracle) (self : ShuffleReaderExec) (i : Nat)
    (h : i < self.partition_location.length) :
    (∀ e : BallistaError,
      connectO (self.partition_location.get ⟨i, h⟩).executor_meta.host
          (self.partition_location.get ⟨i, h⟩).executor_meta.port = .error e →
      ShuffleReaderExec.execute connectO fetchO self i =
        (.err (.Execution ("Ballista Error: " ++ e.debugRepr)),
          [NetEvent.connect (self.partition_location.get ⟨i, h⟩).executor_meta.host
              (self.partition_location.get ⟨i, h⟩).executor_meta.port])) ∧
    (∀ (client : BallistaClient) (e : BallistaError),
      connectO (self.partition_location.get ⟨i, h⟩).executor_meta.host
          (self.partition_location.get ⟨i, h⟩).executor_meta.port = .ok client →
      fetchO client (self.partition_location.get ⟨i, h⟩).partition_id.job_uuid
          (self.partition_location.get ⟨i, h⟩).partition_id.stage_id i = .error e →
      ShuffleReaderExec.execute connectO fetchO self i =
        (.err (.Execution ("Ballista Error: " ++ e.debugRepr)),
          [NetEvent.connect (self.partition_location.get ⟨i, h⟩).executor_meta.host
              (self.partition_location.get ⟨i, h⟩).executor_meta.port,
            NetEvent.fetchPartition
              (self.partition_location.get ⟨i, h⟩).partition_id.job_uuid
              (self.partition_location.get ⟨i, h⟩).partition_id.stage_id i])) ∧
    countConnects (ShuffleReaderExec.execute connectO fetchO self i).2 = 1 ∧
    countFetches (ShuffleReaderExec.execute connectO fetchO self i).2 ≤ 1 := by
  refine ⟨fun e hc => execute_connect_err connectO fetchO self i h e hc,
    fun client e hc hf => execute_fetch_err connectO fetchO self i h client e hc hf,
    ?_, ?_⟩ <;>
  rcases execute_trace_cases connectO fetchO self i h with h1 | h1 <;>
    rw [h1] <;>
    simp [countConnects, countFetches]

/-- Witness for C3: with an always-failing connection factory, the spec
scenario call returns the wrapped execution error after the single
connect. -/
theorem C3_execute_failure_uniform_witness :
    ShuffleReaderExec.execute connNever fetchOne nodeW1 0 =
      (.err (.Execution ("Ballista Error: " ++ "connection refused")),
        [NetEvent.connect "w1" 7001]) :=
  (C3_execute_failure_uniform connNever fetchOne nodeW1 0 (by decide)).1
    { debugRepr := "connection refused" } rfl

/-- C4: for every valid index, when connection and fetch both succeed with
batch list `batches`, `execute` returns the stream built from exactly
those batches, the operator schema, and no row-count cap, and that stream
yields exactly those batches in order and then ends. -/
theorem C4_execute_success_wraps (connectO : ConnectOracle)
    (fetchO : FetchOracle) (self : ShuffleReaderExec) (i : Nat)
    (client : BallistaClient) (batches : List RecordBatch)
    (h : i < self.partition_location.length)
    (hc : connectO (self.partition_location.get ⟨i, h⟩).executor_meta.host
        (self.partition_location.get ⟨i, h⟩).executor_meta.port = .ok client)
    (hf : fetchO client (self.partition_location.get ⟨i, h⟩).partition_id.job_uuid
        (self.partition_location.get ⟨i, h⟩).partition_id.stage_id i = .ok batches) :
    ShuffleReaderExec.execute connectO fetchO self i =
      (.ok { batches := batches, schema := ShuffleReaderExec.planSchema self,
             rowLimit := none },
        [NetEvent.connect (self.partition_location.get ⟨i, h⟩).executor_meta.host
            (self.partition_location.get ⟨i, h⟩).executor_meta.port,
          NetEvent.fetchPartition
            (self.partition_location.get ⟨i, h⟩).partition_id.job_uuid
            (self.partition_location.get ⟨i, h⟩).partition_id.stage_id i]) ∧
    MemoryStream.output
        { batches := batches, schema := ShuffleReaderExec.planSchema self,
          rowLimit := none } = batches :=
  ⟨execute_ok_path connectO fetchO self i h client batches hc hf, rfl⟩

/-- Witness for C4 at the spec scenario: one 3-row batch is wrapped with
the one-column schema and no cap, and the stream yields exactly it. -/
theorem C4_execute_success_wraps_witness :
    ShuffleReaderExec.execute connOK fetchOne nodeW1 0 =
      (.ok { batches := [{ numRows := 3 }], schema := schemaA, rowLimit := none },
        [NetEvent.connect "w1" 7001, NetEvent.fetchPartition "J1" 2 0]) ∧
    MemoryStream.output
        { batches := [{ numRows := 3 }], schema := schemaA, rowLimit := none } =
      [{ numRows := 3 }] :=
  C4_execute_success_wraps connOK fetchOne nodeW1 0 { tag := 0 }
    [{ numRows := 3 }] (by decide) rfl rfl

/-- C10: for every valid index, any fetch event `execute(i)` issues
carries the call argument `i` as its partition index — not the partition
index stored inside `locations[i]` — together with that location's job id
and stage id. -/
theorem C10_fetch_uses_argument_index (connectO : ConnectOracle)
    (fetchO : FetchOracle) (self : ShuffleReaderExec) (i : Nat)
    (h : i < self.partition_location.length) :
    ∀ (j : String) (s p : Nat),
      NetEvent.fetchPartition j s p ∈
          (ShuffleReaderExec.execute connectO fetchO self i).2 →
      p = i ∧ j = (self.partition_location.get ⟨i, h⟩).partition_id.job_uuid ∧
        s = (self.partition_location.get ⟨i, h⟩).partition_id.stage_id := by
  intro j s p hmem
  rcases execute_trace_cases connectO fetchO self i h with h1 | h1 <;>
    rw [h1] at hmem <;> simp at hmem
  obtain ⟨hj, hs, hp⟩ := hmem
  exact ⟨hp, hj, hs⟩

/-- Witness for C10: at a node whose stored partition index (5) differs
from the list position (0), the fetch that `execute(0)` issues carries
partition index 0. -/
theorem C10_fetch_uses_argument_index_witness :
    locSkew.partition_id.partition_id = 5 ∧
    ((0 : Nat) = 0 ∧ "J9" = locSkew.partition_id.job_uuid ∧
      (4 : Nat) = locSkew.partition_id.stage_id) :=
  ⟨rfl, C10_fetch_uses_argument_index connOK fetchOne nodeSkew 0 (by decide)
    "J9" 4 0 (by decide)⟩
